import Mathlib

/-!
Shallow embedding of `src/custom_nodes/dabble/high_knee.py`: a PeekingDuck
custom node that counts high-knee exercise repetitions from per-frame pose
keypoints.  Relative coordinates and confidence scores are embedded as `Rat`,
Python's unbounded non-negative counters as `Nat`, the `"up"`/`"down"` position
strings as `String`, and the drawing side effects as an explicit list of drawn
text records.  The fallible parts (indexing `keypoint_scores[i]` inside the
scan loop, which raises in Python when the score array is shorter than the
keypoint array) are embedded with `Option`.
-/

/-- Confidence threshold below which keypoints are ignored
(`THRESHOLD = 0.3 = 3/10`). -/
def THRESHOLD : Rat := Rat.divInt 3 10

/-- PoseNet skeletal keypoint index of the right shoulder. -/
def KP_RIGHT_SHOULDER : Nat := 6

/-- PoseNet skeletal keypoint index of the right wrist. -/
def KP_RIGHT_WRIST : Nat := 10

/-- PoseNet skeletal keypoint index of the left hip. -/
def KP_LEFT_HIP : Nat := 11

/-- PoseNet skeletal keypoint index of the right hip. -/
def KP_RIGHT_HIP : Nat := 12

/-- PoseNet skeletal keypoint index of the left knee. -/
def KP_LEFT_KNEE : Nat := 13

/-- PoseNet skeletal keypoint index of the right knee. -/
def KP_RIGHT_KNEE : Nat := 14

/-- BGR colour triples used for drawing. -/
inductive Color where
  | white : Color
  | yellow : Color
deriving DecidableEq, Repr

/-- Python's `int()` applied to a rational: truncation toward zero. -/
def pyInt (q : Rat) : Int :=
  if q < 0 then -(⌊-q⌋) else ⌊q⌋

/-- `map_bbox_to_image_coords`: relative bbox coords scaled to pixels. -/
def map_bbox_to_image_coords (bbox : Rat × Rat × Rat × Rat)
    (image_size : Nat × Nat) : Int × Int × Int × Int :=
  let width : Rat := image_size.1
  let height : Rat := image_size.2
  let x1 := bbox.1 * width
  let y1 := bbox.2.1 * height
  let x2 := bbox.2.2.1 * width
  let y2 := bbox.2.2.2 * height
  (pyInt x1, pyInt y1, pyInt x2, pyInt y2)

/-- `map_keypoint_to_image_coords`: relative keypoint coords scaled to pixels,
`x *= width; y *= height; return int(x), int(y)`. -/
def map_keypoint_to_image_coords (keypoint : Rat × Rat)
    (image_size : Nat × Nat) : Int × Int :=
  let width : Rat := image_size.1
  let height : Rat := image_size.2
  let x := keypoint.1 * width
  let y := keypoint.2 * height
  (pyInt x, pyInt y)

/-- One call to `draw_text`: the position, text and colour drawn on the frame. -/
structure DrawnText where
  x : Int
  y : Int
  text : String
  color : Color
deriving DecidableEq, Repr

/-- The node's mutable working variables, set up in `Node.__init__`. -/
structure NodeState where
  right_wrist : Option (Rat × Rat)
  right_knee : Option (Rat × Rat)
  left_knee : Option (Rat × Rat)
  r_up : String
  l_up : String
  direction : Option String
  r_num_direction_changes : Nat
  r_num_waves : Nat
  l_num_direction_changes : Nat
  l_num_waves : Nat
deriving DecidableEq, Repr

/-- The state established by `Node.__init__`. -/
def initState : NodeState :=
  { right_wrist := none
    right_knee := none
    left_knee := none
    r_up := "down"
    l_up := "down"
    direction := none
    r_num_direction_changes := 0
    r_num_waves := 0
    l_num_direction_changes := 0
    l_num_waves := 0 }

/-- The per-side update of `Node.run` (lines 176-187 for the right side,
189-200 for the left side; identical logic, independent state).  Given the
knee and hip y coordinates and the side's previous `up` string, direction
change count and wave count, it returns the new `up` string, direction change
count and wave count. -/
def limbStep (knee_y hip_y : Rat) (last_up : String) (dc waves : Nat) :
    String × Nat × Nat :=
  let up := if knee_y < hip_y then "up" else "down"
  let dc := if up ≠ last_up then dc + 1 else dc
  if dc ≥ 2 then (up, 0, waves + 1) else (up, dc, waves)

/-- Accumulator of the keypoint scan loop in `Node.run` (lines 137-164):
the four keypoints of interest found so far and the texts drawn so far. -/
structure ScanAcc where
  right_knee : Option (Rat × Rat)
  left_knee : Option (Rat × Rat)
  right_hip : Option (Rat × Rat)
  left_hip : Option (Rat × Rat)
  drawn : List DrawnText
deriving DecidableEq, Repr

/-- The empty scan accumulator (`right_knee = left_knee = right_hip =
left_hip = None`, nothing drawn yet). -/
def emptyAcc : ScanAcc :=
  { right_knee := none, left_knee := none, right_hip := none,
    left_hip := none, drawn := [] }

/-- The keypoint scan loop of `Node.run`:
`for i, keypoints in enumerate(the_keypoints): ...`.  For each keypoint at
index `i` whose score is at least `THRESHOLD`, records it when `i` is one of
the four indices of interest and draws its pixel coordinates (yellow for the
four of interest, white otherwise).  Returns `none` when
`the_keypoint_scores[i]` is out of range (an `IndexError` in Python). -/
def scanLoop (scores : List Rat) (img_size : Nat × Nat) :
    Nat → List (Rat × Rat) → ScanAcc → Option ScanAcc
  | _, [], acc => some acc
  | i, kp :: rest, acc =>
    match scores[i]? with
    | none => none
    | some keypoint_score =>
      if THRESHOLD ≤ keypoint_score then
        let xy := map_keypoint_to_image_coords kp img_size
        let x_y_str := "(" ++ toString xy.1 ++ ", " ++ toString xy.2 ++ ")"
        let acc' :=
          if i = KP_LEFT_HIP then { acc with left_hip := some kp }
          else if i = KP_RIGHT_HIP then { acc with right_hip := some kp }
          else if i = KP_RIGHT_KNEE then { acc with right_knee := some kp }
          else if i = KP_LEFT_KNEE then { acc with left_knee := some kp }
          else acc
        let the_color :=
          if i = KP_LEFT_HIP ∨ i = KP_RIGHT_HIP ∨ i = KP_RIGHT_KNEE ∨
              i = KP_LEFT_KNEE then Color.yellow
          else Color.white
        scanLoop scores img_size (i + 1) rest
          { acc' with drawn := acc'.drawn ++ [⟨xy.1, xy.2, x_y_str, the_color⟩] }
      else scanLoop scores img_size (i + 1) rest acc

/-- The per-frame inputs consumed by `Node.run`: the frame dimensions and the
`keypoints` / `keypoint_scores` arrays (one entry per detected subject). -/
structure FrameInput where
  img_width : Nat
  img_height : Nat
  keypoints : List (List (Rat × Rat))
  keypoint_scores : List (List Rat)
deriving DecidableEq, Repr

/-- The observable outcome of one call to `Node.run`: the updated node state,
everything drawn on the frame, and the wave counter string. -/
structure RunResult where
  state : NodeState
  drawn : List DrawnText
  wave_str : String
deriving DecidableEq, Repr

/-- The wave counter text drawn each frame:
`f"high knees = {self.l_num_waves + self.r_num_waves}"`. -/
def waveStr (s : NodeState) : String :=
  "high knees = " ++ toString (s.l_num_waves + s.r_num_waves)

/-- The state-machine part of `Node.run` (lines 166-200): when all four
keypoints of interest were found, update the first-data-point caches and run
the per-side state machine for the right side then the left side; otherwise
leave the state untouched. -/
def updateFromScan (s : NodeState) (acc : ScanAcc) : NodeState :=
  match acc.left_hip, acc.right_hip, acc.left_knee, acc.right_knee with
  | some left_hip, some right_hip, some left_knee, some right_knee =>
    let s := { s with
      right_knee :=
        if s.right_knee.isNone then some right_knee else s.right_knee,
      left_knee :=
        if s.left_knee.isNone then some left_knee else s.left_knee }
    let r := limbStep right_knee.2 right_hip.2 s.r_up
      s.r_num_direction_changes s.r_num_waves
    let s := { s with r_up := r.1, r_num_direction_changes := r.2.1,
                      r_num_waves := r.2.2 }
    let l := limbStep left_knee.2 left_hip.2 s.l_up
      s.l_num_direction_changes s.l_num_waves
    { s with l_up := l.1, l_num_direction_changes := l.2.1,
             l_num_waves := l.2.2 }
  | _, _, _, _ => s

/-- One call to `Node.run`.  Returns `none` exactly when the Python code would
raise (scores array shorter than the keypoint array for subject 0). -/
def run (s : NodeState) (inputs : FrameInput) : Option RunResult :=
  if inputs.keypoints.length = 0 ∨ inputs.keypoint_scores.length = 0 then
    some ⟨s, [⟨20, 30, waveStr s, Color.yellow⟩], waveStr s⟩
  else
    match inputs.keypoints[0]?, inputs.keypoint_scores[0]? with
    | some the_keypoints, some the_keypoint_scores =>
      match scanLoop the_keypoint_scores (inputs.img_width, inputs.img_height)
          0 the_keypoints emptyAcc with
      | none => none
      | some acc =>
        some ⟨updateFromScan s acc,
          acc.drawn ++ [⟨20, 30, waveStr (updateFromScan s acc), Color.yellow⟩],
          waveStr (updateFromScan s acc)⟩
    | _, _ => none

/-- Processing a sequence of frames: `run` once per frame, threading the
node state, propagating failure. -/
def runSeq (s : NodeState) : List FrameInput → Option NodeState
  | [] => some s
  | f :: rest =>
    match run s f with
    | none => none
    | some r => runSeq r.state rest

/-- Iterating the per-side state machine over a list of
(knee y, hip y) observations. -/
def limbRun : List (Rat × Rat) → String × Nat × Nat → String × Nat × Nat
  | [], st => st
  | (ky, hy) :: rest, st => limbRun rest (limbStep ky hy st.1 st.2.1 st.2.2)

/-- The value of the transition counter after step 2 of the per-side update
(after the possible increment, before the reset check). -/
def transCount (knee_y hip_y : Rat) (last_up : String) (dc : Nat) : Nat :=
  let up := if knee_y < hip_y then "up" else "down"
  if up ≠ last_up then dc + 1 else dc

/-- Specification of what the scan loop stores for the keypoint index `t` of
interest: walking the keypoint list from enumeration index `i`, the slot keeps
its current value `cur` except when the enumeration reaches index `t` with a
score at least `THRESHOLD`, in which case it is overwritten with that
keypoint. -/
def pickKP (scores : List Rat) (t : Nat) :
    Nat → List (Rat × Rat) → Option (Rat × Rat) → Option (Rat × Rat)
  | _, [], cur => cur
  | i, kp :: rest, cur =>
    pickKP scores t (i + 1) rest
      (if i = t ∧ THRESHOLD ≤ scores[i]?.getD 0 then some kp else cur)

lemma pickKP_of_below {scores : List Rat} {t : Nat}
    (hb : ¬ THRESHOLD ≤ scores[t]?.getD 0) :
    ∀ (kps : List (Rat × Rat)) (i : Nat) (cur : Option (Rat × Rat)),
      pickKP scores t i kps cur = cur := by
  intro kps
  induction kps with
  | nil => intro i cur; rfl
  | cons kp rest ih =>
    intro i cur
    rw [pickKP]
    by_cases hi : i = t
    · subst hi; rw [if_neg (by simp [hb]), ih]
    · rw [if_neg (by simp [hi]), ih]

lemma pickKP_of_gt {scores : List Rat} {t : Nat} :
    ∀ (kps : List (Rat × Rat)) (i : Nat) (cur : Option (Rat × Rat)),
      t < i → pickKP scores t i kps cur = cur := by
  intro kps
  induction kps with
  | nil => intro i cur _; rfl
  | cons kp rest ih =>
    intro i cur hlt
    rw [pickKP, if_neg (by rintro ⟨rfl, -⟩; omega), ih _ _ (by omega)]

lemma pickKP_of_short {scores : List Rat} {t : Nat} :
    ∀ (kps : List (Rat × Rat)) (i : Nat) (cur : Option (Rat × Rat)),
      i + kps.length ≤ t → pickKP scores t i kps cur = cur := by
  intro kps
  induction kps with
  | nil => intro i cur _; rfl
  | cons kp rest ih =>
    intro i cur hle
    simp only [List.length_cons] at hle
    rw [pickKP, if_neg (by rintro ⟨rfl, -⟩; omega), ih _ _ (by omega)]

lemma pickKP_of_present {scores : List Rat} {t : Nat} :
    ∀ (kps : List (Rat × Rat)) (i : Nat) (cur : Option (Rat × Rat))
      (hit : i ≤ t) (hlen : t - i < kps.length),
      THRESHOLD ≤ scores[t]?.getD 0 →
      pickKP scores t i kps cur = some (kps.get ⟨t - i, hlen⟩) := by
  intro kps
  induction kps with
  | nil => intro i cur _ hlen; simp at hlen
  | cons kp rest ih =>
    intro i cur hit hlen hth
    rw [pickKP]
    by_cases hi : i = t
    · subst hi
      rw [if_pos ⟨rfl, hth⟩, pickKP_of_gt _ _ _ (by omega)]
      simp
    · have h1 : i + 1 ≤ t := by omega
      rw [if_neg (by rintro ⟨rfl, -⟩; exact hi rfl),
        ih (i + 1) _ h1 (by simp at hlen ⊢; omega) hth]
      congr 1
      have : t - i = (t - (i + 1)) + 1 := by omega
      simp [this]

lemma pickKP_map_snd {scores : List Rat} {t : Nat} :
    ∀ (kps1 kps2 : List (Rat × Rat)) (i : Nat) (cur1 cur2 : Option (Rat × Rat)),
      kps1.map Prod.snd = kps2.map Prod.snd →
      cur1.map Prod.snd = cur2.map Prod.snd →
      (pickKP scores t i kps1 cur1).map Prod.snd
        = (pickKP scores t i kps2 cur2).map Prod.snd := by
  intro kps1
  induction kps1 with
  | nil =>
    intro kps2 i cur1 cur2 hk hc
    cases kps2 with
    | nil => exact hc
    | cons kp2 rest2 => simp at hk
  | cons kp1 rest1 ih =>
    intro kps2 i cur1 cur2 hk hc
    cases kps2 with
    | nil => simp at hk
    | cons kp2 rest2 =>
      simp only [List.map_cons, List.cons.injEq] at hk
      rw [pickKP, pickKP]
      apply ih _ _ _ _ hk.2
      by_cases hcond : i = t ∧ THRESHOLD ≤ scores[i]?.getD 0
      · rw [if_pos hcond, if_pos hcond]; simp [hk.1]
      · rw [if_neg hcond, if_neg hcond]; exact hc

lemma scanLoop_char {scores : List Rat} {sz : Nat × Nat} :
    ∀ (kps : List (Rat × Rat)) (i : Nat) (acc acc' : ScanAcc),
      scanLoop scores sz i kps acc = some acc' →
      acc'.left_hip = pickKP scores KP_LEFT_HIP i kps acc.left_hip ∧
      acc'.right_hip = pickKP scores KP_RIGHT_HIP i kps acc.right_hip ∧
      acc'.left_knee = pickKP scores KP_LEFT_KNEE i kps acc.left_knee ∧
      acc'.right_knee = pickKP scores KP_RIGHT_KNEE i kps acc.right_knee := by
  intro kps
  induction kps with
  | nil =>
    intro i acc acc' h
    rw [scanLoop] at h
    cases h
    exact ⟨rfl, rfl, rfl, rfl⟩
  | cons kp rest ih =>
    intro i acc acc' h
    rw [scanLoop] at h
    cases hsc : scores[i]? with
    | none => rw [hsc] at h; cases h
    | some sc =>
      rw [hsc] at h
      simp only at h
      by_cases hth : THRESHOLD ≤ sc
      · rw [if_pos hth] at h
        obtain ⟨c1, c2, c3, c4⟩ := ih (i + 1) _ _ h
        refine ⟨?_, ?_, ?_, ?_⟩
        · rw [pickKP, c1]
          clear h ih c1 c2 c3 c4
          congr 1
          simp only [hsc, Option.getD_some, KP_LEFT_HIP, KP_RIGHT_HIP,
            KP_RIGHT_KNEE, KP_LEFT_KNEE]
          by_cases h11 : i = 11 <;> by_cases h12 : i = 12 <;>
            by_cases h13 : i = 14 <;> by_cases h14 : i = 13 <;>
            first
            | (exfalso; omega)
            | simp [h11, h12, h13, h14, hth]
        · rw [pickKP, c2]
          clear h ih c1 c2 c3 c4
          congr 1
          simp only [hsc, Option.getD_some, KP_LEFT_HIP, KP_RIGHT_HIP,
            KP_RIGHT_KNEE, KP_LEFT_KNEE]
          by_cases h11 : i = 11 <;> by_cases h12 : i = 12 <;>
            by_cases h13 : i = 14 <;> by_cases h14 : i = 13 <;>
            first
            | (exfalso; omega)
            | simp [h11, h12, h13, h14, hth]
        · rw [pickKP, c3]
          clear h ih c1 c2 c3 c4
          congr 1
          simp only [hsc, Option.getD_some, KP_LEFT_HIP, KP_RIGHT_HIP,
            KP_RIGHT_KNEE, KP_LEFT_KNEE]
          by_cases h11 : i = 11 <;> by_cases h12 : i = 12 <;>
            by_cases h13 : i = 14 <;> by_cases h14 : i = 13 <;>
            first
            | (exfalso; omega)
            | simp [h11, h12, h13, h14, hth]
        · rw [pickKP, c4]
          clear h ih c1 c2 c3 c4
          congr 1
          simp only [hsc, Option.getD_some, KP_LEFT_HIP, KP_RIGHT_HIP,
            KP_RIGHT_KNEE, KP_LEFT_KNEE]
          by_cases h11 : i = 11 <;> by_cases h12 : i = 12 <;>
            by_cases h13 : i = 14 <;> by_cases h14 : i = 13 <;>
            first
            | (exfalso; omega)
            | simp [h11, h12, h13, h14, hth]
      · rw [if_neg hth] at h
        obtain ⟨c1, c2, c3, c4⟩ := ih (i + 1) _ _ h
        have hcond : ∀ t : Nat,
            ¬ (i = t ∧ THRESHOLD ≤ scores[i]?.getD 0) := by
          rintro t ⟨rfl, hth2⟩
          rw [hsc] at hth2
          exact hth hth2
        refine ⟨?_, ?_, ?_, ?_⟩
        · rw [pickKP, c1, if_neg (hcond _)]
        · rw [pickKP, c2, if_neg (hcond _)]
        · rw [pickKP, c3, if_neg (hcond _)]
        · rw [pickKP, c4, if_neg (hcond _)]

lemma limbStep_waves_cases (ky hy : Rat) (u : String) (dc w : Nat) :
    (limbStep ky hy u dc w).2.2 = w ∨
      ((limbStep ky hy u dc w).2.2 = w + 1 ∧ (limbStep ky hy u dc w).2.1 = 0) := by
  rw [limbStep]
  repeat' split
  all_goals first
    | exact Or.inr ⟨rfl, rfl⟩
    | exact Or.inl rfl

lemma limbStep_waves_mono (ky hy : Rat) (u : String) (dc w : Nat) :
    w ≤ (limbStep ky hy u dc w).2.2 := by
  rcases limbStep_waves_cases ky hy u dc w with h | ⟨h, -⟩ <;> omega

lemma limbStep_dc_le (ky hy : Rat) (u : String) {dc : Nat} (w : Nat)
    (h : dc ≤ 1) : (limbStep ky hy u dc w).2.1 ≤ 1 := by
  rw [limbStep]
  repeat' split
  all_goals simp_all

lemma updateFromScan_eq_self {s : NodeState} {acc : ScanAcc}
    (h : acc.left_hip = none ∨ acc.right_hip = none ∨ acc.left_knee = none ∨
      acc.right_knee = none) :
    updateFromScan s acc = s := by
  rw [updateFromScan]
  split
  next lh rh lk rk hlh hrh hlk hrk => rcases h with h | h | h | h <;> simp_all
  next => rfl

lemma updateFromScan_all {s : NodeState} {acc : ScanAcc} {lh rh lk rk : Rat × Rat}
    (h1 : acc.left_hip = some lh) (h2 : acc.right_hip = some rh)
    (h3 : acc.left_knee = some lk) (h4 : acc.right_knee = some rk) :
    (updateFromScan s acc).r_up
        = (limbStep rk.2 rh.2 s.r_up s.r_num_direction_changes s.r_num_waves).1 ∧
    (updateFromScan s acc).r_num_direction_changes
        = (limbStep rk.2 rh.2 s.r_up s.r_num_direction_changes s.r_num_waves).2.1 ∧
    (updateFromScan s acc).r_num_waves
        = (limbStep rk.2 rh.2 s.r_up s.r_num_direction_changes s.r_num_waves).2.2 ∧
    (updateFromScan s acc).l_up
        = (limbStep lk.2 lh.2 s.l_up s.l_num_direction_changes s.l_num_waves).1 ∧
    (updateFromScan s acc).l_num_direction_changes
        = (limbStep lk.2 lh.2 s.l_up s.l_num_direction_changes s.l_num_waves).2.1 ∧
    (updateFromScan s acc).l_num_waves
        = (limbStep lk.2 lh.2 s.l_up s.l_num_direction_changes s.l_num_waves).2.2 := by
  rw [updateFromScan, h1, h2, h3, h4]
  exact ⟨rfl, rfl, rfl, rfl, rfl, rfl⟩

lemma run_empty_eq {s : NodeState} {inp : FrameInput}
    (h : inp.keypoints.length = 0 ∨ inp.keypoint_scores.length = 0) :
    run s inp = some ⟨s, [⟨20, 30, waveStr s, Color.yellow⟩], waveStr s⟩ := by
  rw [run, if_pos h]

lemma run_inv {s : NodeState} {inp : FrameInput} {r : RunResult}
    (h : run s inp = some r) :
    r.wave_str = waveStr r.state ∧
    (r.state = s ∨
      ∃ kps0 scores0 acc,
        inp.keypoints[0]? = some kps0 ∧
        inp.keypoint_scores[0]? = some scores0 ∧
        scanLoop scores0 (inp.img_width, inp.img_height) 0 kps0 emptyAcc
          = some acc ∧
        r.state = updateFromScan s acc) := by
  rw [run] at h
  split at h
  next => cases h; exact ⟨rfl, Or.inl rfl⟩
  next =>
    split at h
    next kps0 scores0 hk hsc =>
      split at h
      next => cases h
      next acc hacc =>
        cases h
        exact ⟨rfl, Or.inr ⟨kps0, scores0, acc, hk, hsc, hacc, rfl⟩⟩
    next => cases h

lemma limbStep_eq (ky hy : Rat) (u : String) (dc w : Nat) :
    limbStep ky hy u dc w =
      ((if ky < hy then "up" else "down"),
       (if 2 ≤ transCount ky hy u dc then 0 else transCount ky hy u dc),
       (if 2 ≤ transCount ky hy u dc then w + 1 else w)) := by
  simp only [limbStep, transCount, ge_iff_le]
  split_ifs <;> rfl

lemma run_state_eq_of_missing {s : NodeState} {inp : FrameInput} {r : RunResult}
    (h : run s inp = some r)
    (hmiss :
      (inp.keypoint_scores[0]?.getD [])[KP_LEFT_HIP]?.getD 0 < THRESHOLD ∨
      (inp.keypoint_scores[0]?.getD [])[KP_RIGHT_HIP]?.getD 0 < THRESHOLD ∨
      (inp.keypoint_scores[0]?.getD [])[KP_LEFT_KNEE]?.getD 0 < THRESHOLD ∨
      (inp.keypoint_scores[0]?.getD [])[KP_RIGHT_KNEE]?.getD 0 < THRESHOLD) :
    r.state = s := by
  obtain ⟨-, hs | ⟨kps0, scores0, acc, hk, hsc, hacc, hstate⟩⟩ := run_inv h
  · exact hs
  · rw [hsc] at hmiss
    simp only [Option.getD_some] at hmiss
    obtain ⟨c1, c2, c3, c4⟩ := scanLoop_char _ _ _ _ hacc
    rw [hstate]
    rcases hmiss with hm | hm | hm | hm
    · exact updateFromScan_eq_self (Or.inl
        (by rw [c1]; exact pickKP_of_below (not_le.mpr hm) _ _ _))
    · exact updateFromScan_eq_self (Or.inr (Or.inl
        (by rw [c2]; exact pickKP_of_below (not_le.mpr hm) _ _ _)))
    · exact updateFromScan_eq_self (Or.inr (Or.inr (Or.inl
        (by rw [c3]; exact pickKP_of_below (not_le.mpr hm) _ _ _))))
    · exact updateFromScan_eq_self (Or.inr (Or.inr (Or.inr
        (by rw [c4]; exact pickKP_of_below (not_le.mpr hm) _ _ _))))

lemma run_update_cases {s : NodeState} {inp : FrameInput} {r : RunResult}
    (h : run s inp = some r) :
    r.state = s ∨
    ∃ lh rh lk rk : Rat × Rat,
      r.state.r_up
          = (limbStep rk.2 rh.2 s.r_up s.r_num_direction_changes s.r_num_waves).1 ∧
      r.state.r_num_direction_changes
          = (limbStep rk.2 rh.2 s.r_up s.r_num_direction_changes s.r_num_waves).2.1 ∧
      r.state.r_num_waves
          = (limbStep rk.2 rh.2 s.r_up s.r_num_direction_changes s.r_num_waves).2.2 ∧
      r.state.l_up
          = (limbStep lk.2 lh.2 s.l_up s.l_num_direction_changes s.l_num_waves).1 ∧
      r.state.l_num_direction_changes
          = (limbStep lk.2 lh.2 s.l_up s.l_num_direction_changes s.l_num_waves).2.1 ∧
      r.state.l_num_waves
          = (limbStep lk.2 lh.2 s.l_up s.l_num_direction_changes s.l_num_waves).2.2 := by
  obtain ⟨-, hs | ⟨kps0, scores0, acc, -, -, -, hstate⟩⟩ := run_inv h
  · exact Or.inl hs
  · rcases hlh : acc.left_hip with _ | lh
    · exact Or.inl (hstate.trans (updateFromScan_eq_self (Or.inl hlh)))
    rcases hrh : acc.right_hip with _ | rh
    · exact Or.inl (hstate.trans (updateFromScan_eq_self (Or.inr (Or.inl hrh))))
    rcases hlk : acc.left_knee with _ | lk
    · exact Or.inl (hstate.trans
        (updateFromScan_eq_self (Or.inr (Or.inr (Or.inl hlk)))))
    rcases hrk : acc.right_knee with _ | rk
    · exact Or.inl (hstate.trans
        (updateFromScan_eq_self (Or.inr (Or.inr (Or.inr hrk)))))
    refine Or.inr ⟨lh, rh, lk, rk, ?_⟩
    rw [hstate]
    exact updateFromScan_all hlh hrh hlk hrk

lemma run_step_waves {s : NodeState} {inp : FrameInput} {r : RunResult}
    (h : run s inp = some r) :
    s.l_num_waves ≤ r.state.l_num_waves ∧
      s.r_num_waves ≤ r.state.r_num_waves := by
  rcases run_update_cases h with hs | ⟨lh, rh, lk, rk, -, -, e3, -, -, e6⟩
  · rw [hs]; exact ⟨le_rfl, le_rfl⟩
  · rw [e3, e6]; exact ⟨limbStep_waves_mono _ _ _ _ _, limbStep_waves_mono _ _ _ _ _⟩

lemma run_step_dc {s : NodeState} {inp : FrameInput} {r : RunResult}
    (h : run s inp = some r) (hl : s.l_num_direction_changes ≤ 1)
    (hr : s.r_num_direction_changes ≤ 1) :
    r.state.l_num_direction_changes ≤ 1 ∧
      r.state.r_num_direction_changes ≤ 1 := by
  rcases run_update_cases h with hs | ⟨lh, rh, lk, rk, -, e2, -, -, e5, -⟩
  · rw [hs]; exact ⟨hl, hr⟩
  · rw [e2, e5]; exact ⟨limbStep_dc_le _ _ _ _ hl, limbStep_dc_le _ _ _ _ hr⟩

lemma option_snd_cases {o1 o2 : Option (Rat × Rat)}
    (h : o1.map Prod.snd = o2.map Prod.snd) :
    (o1 = none ∧ o2 = none) ∨
      ∃ p q, o1 = some p ∧ o2 = some q ∧ p.2 = q.2 := by
  cases o1 <;> cases o2 <;> simp_all

lemma updateFromScan_congr {s : NodeState} {acc1 acc2 : ScanAcc}
    (h1 : acc1.left_hip.map Prod.snd = acc2.left_hip.map Prod.snd)
    (h2 : acc1.right_hip.map Prod.snd = acc2.right_hip.map Prod.snd)
    (h3 : acc1.left_knee.map Prod.snd = acc2.left_knee.map Prod.snd)
    (h4 : acc1.right_knee.map Prod.snd = acc2.right_knee.map Prod.snd) :
    (updateFromScan s acc1).r_up = (updateFromScan s acc2).r_up ∧
    (updateFromScan s acc1).r_num_direction_changes
        = (updateFromScan s acc2).r_num_direction_changes ∧
    (updateFromScan s acc1).r_num_waves = (updateFromScan s acc2).r_num_waves ∧
    (updateFromScan s acc1).l_up = (updateFromScan s acc2).l_up ∧
    (updateFromScan s acc1).l_num_direction_changes
        = (updateFromScan s acc2).l_num_direction_changes ∧
    (updateFromScan s acc1).l_num_waves = (updateFromScan s acc2).l_num_waves := by
  rcases option_snd_cases h1 with ⟨e1, f1⟩ | ⟨lh1, lh2, e1, f1, g1⟩
  · rw [updateFromScan_eq_self (Or.inl e1), updateFromScan_eq_self (Or.inl f1)]
    exact ⟨rfl, rfl, rfl, rfl, rfl, rfl⟩
  rcases option_snd_cases h2 with ⟨e2, f2⟩ | ⟨rh1, rh2, e2, f2, g2⟩
  · rw [updateFromScan_eq_self (Or.inr (Or.inl e2)),
      updateFromScan_eq_self (Or.inr (Or.inl f2))]
    exact ⟨rfl, rfl, rfl, rfl, rfl, rfl⟩
  rcases option_snd_cases h3 with ⟨e3, f3⟩ | ⟨lk1, lk2, e3, f3, g3⟩
  · rw [updateFromScan_eq_self (Or.inr (Or.inr (Or.inl e3))),
      updateFromScan_eq_self (Or.inr (Or.inr (Or.inl f3)))]
    exact ⟨rfl, rfl, rfl, rfl, rfl, rfl⟩
  rcases option_snd_cases h4 with ⟨e4, f4⟩ | ⟨rk1, rk2, e4, f4, g4⟩
  · rw [updateFromScan_eq_self (Or.inr (Or.inr (Or.inr e4))),
      updateFromScan_eq_self (Or.inr (Or.inr (Or.inr f4)))]
    exact ⟨rfl, rfl, rfl, rfl, rfl, rfl⟩
  obtain ⟨a1, a2, a3, a4, a5, a6⟩ := updateFromScan_all (s := s) e1 e2 e3 e4
  obtain ⟨b1, b2, b3, b4, b5, b6⟩ := updateFromScan_all (s := s) f1 f2 f3 f4
  rw [a1, a2, a3, a4, a5, a6, b1, b2, b3, b4, b5, b6, g1, g2, g3, g4]
  exact ⟨rfl, rfl, rfl, rfl, rfl, rfl⟩

/-- A full 15-entry PoseNet keypoint list with the given left hip, right hip,
left knee and right knee entries (indices 11-14); all other entries are at
the origin. -/
def kp15 (lhip rhip lknee rknee : Rat × Rat) : List (Rat × Rat) :=
  [(0, 0), (0, 0), (0, 0), (0, 0), (0, 0), (0, 0), (0, 0), (0, 0), (0, 0),
   (0, 0), (0, 0), lhip, rhip, lknee, rknee]

/-- A matching 15-entry score list with the given left hip, right hip,
left knee and right knee confidences (indices 11-14); all other scores 0. -/
def sc15 (lhip rhip lknee rknee : Rat) : List Rat :=
  [0, 0, 0, 0, 0, 0, 0, 0, 0, 0, 0, lhip, rhip, lknee, rknee]

/-- Frame with only the right side confident (left hip score 0), right knee
strictly below the right hip (position down). -/
def fRDown : FrameInput :=
  { img_width := 640, img_height := 480,
    keypoints := [kp15 (0, Rat.divInt 1 2) (0, Rat.divInt 1 2)
      (0, Rat.divInt 3 4) (0, Rat.divInt 3 4)],
    keypoint_scores := [sc15 0 1 1 1] }

/-- Frame with only the right side confident (left hip score 0), right knee
strictly above the right hip (position up). -/
def fRUp : FrameInput :=
  { img_width := 640, img_height := 480,
    keypoints := [kp15 (0, Rat.divInt 1 2) (0, Rat.divInt 1 2)
      (0, Rat.divInt 3 4) (0, Rat.divInt 1 4)],
    keypoint_scores := [sc15 0 1 1 1] }

/-- Frame with only the left side confident (right hip score 0), both knees
strictly below the hips. -/
def fLDown : FrameInput :=
  { img_width := 640, img_height := 480,
    keypoints := [kp15 (0, Rat.divInt 1 2) (0, Rat.divInt 1 2)
      (0, Rat.divInt 3 4) (0, Rat.divInt 3 4)],
    keypoint_scores := [sc15 1 0 1 1] }

/-- Frame with all four tracked keypoints confident, both knees strictly
below the hips (both positions down). -/
def fAllDown : FrameInput :=
  { img_width := 640, img_height := 480,
    keypoints := [kp15 (0, Rat.divInt 1 2) (0, Rat.divInt 1 2)
      (0, Rat.divInt 3 4) (0, Rat.divInt 3 4)],
    keypoint_scores := [sc15 1 1 1 1] }

/-- Frame with all four tracked keypoints confident, right knee strictly
above the right hip, left knee strictly below the left hip. -/
def fAllRUp : FrameInput :=
  { img_width := 640, img_height := 480,
    keypoints := [kp15 (0, Rat.divInt 1 2) (0, Rat.divInt 1 2)
      (0, Rat.divInt 3 4) (0, Rat.divInt 1 4)],
    keypoint_scores := [sc15 1 1 1 1] }

/-- Frame with no detected subject: empty keypoints and scores arrays. -/
def fEmpty : FrameInput :=
  { img_width := 640, img_height := 480, keypoints := [], keypoint_scores := [] }

lemma pyInt_eq_trunc (q : Rat) :
    pyInt q = if 0 ≤ q then ⌊q⌋ else ⌈q⌉ := by
  rw [pyInt]
  rcases lt_or_le q 0 with hq | hq
  · rw [if_pos hq, if_neg (not_le.mpr hq), Int.floor_neg, neg_neg]
  · rw [if_neg (not_lt.mpr hq), if_pos hq]

/-- The spec contract for the coordinate mapper (§4.1): multiply each relative
axis by the corresponding frame dimension and truncate to integer (truncation
toward zero); defined over all rational inputs, so inputs outside `[0, 1]`
are accepted without validation. -/
def toPixelCoords (relativePoint : Rat × Rat)
    (frameWidth frameHeight : Nat) : Int × Int :=
  (if 0 ≤ relativePoint.1 * (frameWidth : Rat)
     then ⌊relativePoint.1 * (frameWidth : Rat)⌋
   else ⌈relativePoint.1 * (frameWidth : Rat)⌉,
   if 0 ≤ relativePoint.2 * (frameHeight : Rat)
     then ⌊relativePoint.2 * (frameHeight : Rat)⌋
   else ⌈relativePoint.2 * (frameHeight : Rat)⌉)

/-- C8: for every relative keypoint `(x, y)` and frame dimensions
`(width, height)`, the mapper returns exactly
`(trunc(x * width), trunc(y * height))`; it is total (never fails) and the
input is not constrained to `[0, 1]`, so off-frame inputs are accepted and
produce off-frame pixel coordinates. -/
theorem C8_coordinate_mapper :
    ∀ (x y : Rat) (w h : Nat),
      map_keypoint_to_image_coords (x, y) (w, h) = toPixelCoords (x, y) w h := by
  intro x y w h
  simp only [map_keypoint_to_image_coords, toPixelCoords, pyInt_eq_trunc]

/-- C3: starting from `lastPosition = down`, `transitionCount = 0`, three
consecutive updates of one side with the knee strictly below, then strictly
above, then strictly below the hip line (positions down, up, down) leave that
side with `repCount` increased by exactly 1 and `transitionCount = 0`. -/
theorem C3_two_flip :
    ∀ (k1 hip1 k2 hip2 k3 hip3 : Rat) (waves : Nat),
      hip1 < k1 → k2 < hip2 → hip3 < k3 →
      limbRun [(k1, hip1), (k2, hip2), (k3, hip3)] ("down", 0, waves)
        = ("down", 0, waves + 1) := by
  intro k1 hip1 k2 hip2 k3 hip3 waves h1 h2 h3
  have s1 : limbStep k1 hip1 "down" 0 waves = ("down", 0, waves) := by
    simp [limbStep, if_neg (lt_asymm h1)]
  have s2 : limbStep k2 hip2 "down" 0 waves = ("up", 1, waves) := by
    simp [limbStep, if_pos h2]
  have s3 : limbStep k3 hip3 "up" 1 waves = ("down", 0, waves + 1) := by
    simp [limbStep, if_neg (lt_asymm h3)]
  simp only [limbRun, s1, s2, s3]

/-- C4: starting from `lastPosition = down`, `transitionCount = 0`, exactly
two updates of one side yielding positions down then up leave that side's
`repCount` unchanged and `transitionCount = 1`. -/
theorem C4_single_flip :
    ∀ (k1 hip1 k2 hip2 : Rat) (waves : Nat),
      hip1 < k1 → k2 < hip2 →
      limbRun [(k1, hip1), (k2, hip2)] ("down", 0, waves)
        = ("up", 1, waves) := by
  intro k1 hip1 k2 hip2 waves h1 h2
  have s1 : limbStep k1 hip1 "down" 0 waves = ("down", 0, waves) := by
    simp [limbStep, if_neg (lt_asymm h1)]
  have s2 : limbStep k2 hip2 "down" 0 waves = ("up", 1, waves) := by
    simp [limbStep, if_pos h2]
  simp only [limbRun, s1, s2]

/-- C6: a frame whose keypoints array (or keypoint-scores array) is empty
leaves the whole node state unchanged and draws the total computed from the
prior state. -/
theorem C6_absent_subject_freeze :
    ∀ (s : NodeState) (inp : FrameInput),
      inp.keypoints.length = 0 ∨ inp.keypoint_scores.length = 0 →
      run s inp = some ⟨s, [⟨20, 30, waveStr s, Color.yellow⟩], waveStr s⟩ := by
  intro s inp h
  exact run_empty_eq h

/-- C9: on every frame that `run` completes, the displayed wave text is
exactly `"high knees = {total}"` where `total` is the sum of the left and
right wave counters of the resulting state (state which, per the embedding of
the counter read, is not modified by computing the display). -/
theorem C9_aggregated_display :
    ∀ (s : NodeState) (inp : FrameInput) (r : RunResult),
      run s inp = some r →
      r.wave_str
        = "high knees = " ++ toString (r.state.l_num_waves + r.state.r_num_waves) := by
  intro s inp r h
  exact (run_inv h).1

lemma pickKP_from_none_isSome {scores : List Rat} {t : Nat}
    {kps : List (Rat × Rat)} :
    (pickKP scores t 0 kps none).isSome ↔
      t < kps.length ∧ THRESHOLD ≤ scores[t]?.getD 0 := by
  constructor
  · intro h
    by_cases hth : THRESHOLD ≤ scores[t]?.getD 0
    · refine ⟨?_, hth⟩
      by_contra hlen
      rw [pickKP_of_short kps 0 none (by omega)] at h
      simp at h
    · rw [pickKP_of_below hth kps 0 none] at h
      simp at h
  · rintro ⟨hlen, hth⟩
    rw [pickKP_of_present kps 0 none (Nat.zero_le t) (by omega) hth]
    rfl

/-- C2: over any sequence of frames, each side's wave counter and their total
are non-decreasing; and within one per-side update, when the transition
counter (after its possible increment) reaches 2 the wave counter increases
by exactly 1 and the transition counter resets to 0, while otherwise the wave
counter is unchanged and the transition counter keeps that value. -/
theorem C2_monotonicity :
    (∀ (s : NodeState) (frames : List FrameInput) (s' : NodeState),
        runSeq s frames = some s' →
        s.l_num_waves ≤ s'.l_num_waves ∧ s.r_num_waves ≤ s'.r_num_waves ∧
        s.l_num_waves + s.r_num_waves ≤ s'.l_num_waves + s'.r_num_waves) ∧
    (∀ (ky hy : Rat) (u : String) (dc w : Nat),
        (2 ≤ transCount ky hy u dc →
          (limbStep ky hy u dc w).2.2 = w + 1 ∧ (limbStep ky hy u dc w).2.1 = 0) ∧
        (transCount ky hy u dc < 2 →
          (limbStep ky hy u dc w).2.2 = w ∧
            (limbStep ky hy u dc w).2.1 = transCount ky hy u dc)) := by
  constructor
  · intro s frames
    induction frames generalizing s with
    | nil =>
      intro s' h
      rw [runSeq] at h
      cases h
      exact ⟨le_rfl, le_rfl, le_rfl⟩
    | cons f rest ih =>
      intro s' h
      rw [runSeq] at h
      cases hr : run s f with
      | none => rw [hr] at h; cases h
      | some r =>
        rw [hr] at h
        obtain ⟨l1, r1⟩ := run_step_waves hr
        obtain ⟨l2, r2, -⟩ := ih r.state s' h
        exact ⟨le_trans l1 l2, le_trans r1 r2, by omega⟩
  · intro ky hy u dc w
    constructor
    · intro hc
      rw [limbStep_eq]
      rw [if_pos hc, if_pos hc]
      exact ⟨rfl, rfl⟩
    · intro hc
      have hneg : ¬ 2 ≤ transCount ky hy u dc := by omega
      rw [limbStep_eq]
      rw [if_neg hneg, if_neg hneg]
      exact ⟨rfl, rfl⟩

/-- C7: starting from the constructed state, after any sequence of completed
`run` calls each side's transition counter is 0 or 1 (never 2 or more); the
empty sequence covers the state right after construction. -/
theorem C7_transition_counter_invariant :
    ∀ (frames : List FrameInput) (s' : NodeState),
      runSeq initState frames = some s' →
      s'.l_num_direction_changes ≤ 1 ∧ s'.r_num_direction_changes ≤ 1 := by
  have main : ∀ (frames : List FrameInput) (s s' : NodeState),
      s.l_num_direction_changes ≤ 1 → s.r_num_direction_changes ≤ 1 →
      runSeq s frames = some s' →
      s'.l_num_direction_changes ≤ 1 ∧ s'.r_num_direction_changes ≤ 1 := by
    intro frames
    induction frames with
    | nil =>
      intro s s' hl hr h
      rw [runSeq] at h
      cases h
      exact ⟨hl, hr⟩
    | cons f rest ih =>
      intro s s' hl hr h
      rw [runSeq] at h
      cases hstep : run s f with
      | none => rw [hstep] at h; cases h
      | some r =>
        rw [hstep] at h
        obtain ⟨hl2, hr2⟩ := run_step_dc hstep hl hr
        exact ih r.state s' hl2 hr2 h
  intro frames s' h
  exact main frames initState s' (by decide) (by decide) h

/-- C5: a tracked keypoint is recorded by the frame scan exactly when its
confidence is at least 0.3 (strictly below 0.3 or out of range means absent);
and a frame whose left (resp. right) hip-or-knee confidence is strictly below
0.3 leaves the left (resp. right) side's `lastPosition`, `transitionCount`
and `repCount` unchanged, whatever the coordinates are. -/
theorem C5_missing_data_freeze :
    (∀ (kps : List (Rat × Rat)) (scores : List Rat) (sz : Nat × Nat)
        (acc : ScanAcc),
        scanLoop scores sz 0 kps emptyAcc = some acc →
        ((acc.left_hip.isSome ↔
            KP_LEFT_HIP < kps.length ∧
              THRESHOLD ≤ scores[KP_LEFT_HIP]?.getD 0) ∧
         (acc.right_hip.isSome ↔
            KP_RIGHT_HIP < kps.length ∧
              THRESHOLD ≤ scores[KP_RIGHT_HIP]?.getD 0) ∧
         (acc.left_knee.isSome ↔
            KP_LEFT_KNEE < kps.length ∧
              THRESHOLD ≤ scores[KP_LEFT_KNEE]?.getD 0) ∧
         (acc.right_knee.isSome ↔
            KP_RIGHT_KNEE < kps.length ∧
              THRESHOLD ≤ scores[KP_RIGHT_KNEE]?.getD 0))) ∧
    (∀ (s : NodeState) (inp : FrameInput) (r : RunResult),
        run s inp = some r →
        (inp.keypoint_scores[0]?.getD [])[KP_LEFT_HIP]?.getD 0 < THRESHOLD ∨
          (inp.keypoint_scores[0]?.getD [])[KP_LEFT_KNEE]?.getD 0 < THRESHOLD →
        r.state.l_up = s.l_up ∧
        r.state.l_num_direction_changes = s.l_num_direction_changes ∧
        r.state.l_num_waves = s.l_num_waves) ∧
    (∀ (s : NodeState) (inp : FrameInput) (r : RunResult),
        run s inp = some r →
        (inp.keypoint_scores[0]?.getD [])[KP_RIGHT_HIP]?.getD 0 < THRESHOLD ∨
          (inp.keypoint_scores[0]?.getD [])[KP_RIGHT_KNEE]?.getD 0 < THRESHOLD →
        r.state.r_up = s.r_up ∧
        r.state.r_num_direction_changes = s.r_num_direction_changes ∧
        r.state.r_num_waves = s.r_num_waves) := by
  refine ⟨?_, ?_, ?_⟩
  · intro kps scores sz acc hacc
    obtain ⟨c1, c2, c3, c4⟩ := scanLoop_char _ _ _ _ hacc
    rw [c1, c2, c3, c4]
    exact ⟨pickKP_from_none_isSome, pickKP_from_none_isSome,
      pickKP_from_none_isSome, pickKP_from_none_isSome⟩
  · intro s inp r h hm
    have hs : r.state = s := by
      apply run_state_eq_of_missing h
      rcases hm with hm | hm
      · exact Or.inl hm
      · exact Or.inr (Or.inr (Or.inl hm))
    rw [hs]
    exact ⟨rfl, rfl, rfl⟩
  · intro s inp r h hm
    have hs : r.state = s := by
      apply run_state_eq_of_missing h
      rcases hm with hm | hm
      · exact Or.inr (Or.inl hm)
      · exact Or.inr (Or.inr (Or.inr hm))
    rw [hs]
    exact ⟨rfl, rfl, rfl⟩

/-- C1 counterexample: in `fRUp`/`fRDown` the right hip and right knee have
confidence 1 ≥ 0.3 while the left hip has confidence 0 < 0.3, and the right
knee crosses the hip line down, up, down across three frames; yet running the
three frames from the freshly constructed state changes nothing at all — in
particular the right side is NOT updated on any of these frames and
`r_num_waves` stays 0 instead of increasing. -/
theorem C1_side_independence_counterexample :
    THRESHOLD ≤ (fRUp.keypoint_scores[0]?.getD [])[KP_RIGHT_HIP]?.getD 0 ∧
    THRESHOLD ≤ (fRUp.keypoint_scores[0]?.getD [])[KP_RIGHT_KNEE]?.getD 0 ∧
    (fRUp.keypoint_scores[0]?.getD [])[KP_LEFT_HIP]?.getD 0 < THRESHOLD ∧
    THRESHOLD ≤ (fRDown.keypoint_scores[0]?.getD [])[KP_RIGHT_HIP]?.getD 0 ∧
    THRESHOLD ≤ (fRDown.keypoint_scores[0]?.getD [])[KP_RIGHT_KNEE]?.getD 0 ∧
    (fRDown.keypoint_scores[0]?.getD [])[KP_LEFT_HIP]?.getD 0 < THRESHOLD ∧
    runSeq initState [fRDown, fRUp, fRDown] = some initState := by
  decide

/-- C1 (amended): the state-machine update runs only when all four tracked
keypoints are confident; whenever any one of the four (left hip, left knee,
right hip, right knee) has confidence strictly below 0.3 or is absent, the
frame leaves BOTH sides' `lastPosition`, `transitionCount` and `repCount`
unchanged — so driving only the right side while the left side never has
valid data leaves `r_num_waves` (and `l_num_waves`) at 0. -/
theorem C1_side_independence_amended :
    ∀ (s : NodeState) (inp : FrameInput) (r : RunResult),
      run s inp = some r →
      (inp.keypoint_scores[0]?.getD [])[KP_LEFT_HIP]?.getD 0 < THRESHOLD ∨
        (inp.keypoint_scores[0]?.getD [])[KP_LEFT_KNEE]?.getD 0 < THRESHOLD ∨
        (inp.keypoint_scores[0]?.getD [])[KP_RIGHT_HIP]?.getD 0 < THRESHOLD ∨
        (inp.keypoint_scores[0]?.getD [])[KP_RIGHT_KNEE]?.getD 0 < THRESHOLD →
      r.state.l_up = s.l_up ∧
      r.state.l_num_direction_changes = s.l_num_direction_changes ∧
      r.state.l_num_waves = s.l_num_waves ∧
      r.state.r_up = s.r_up ∧
      r.state.r_num_direction_changes = s.r_num_direction_changes ∧
      r.state.r_num_waves = s.r_num_waves := by
  intro s inp r h hm
  have hs : r.state = s := by
    apply run_state_eq_of_missing h
    rcases hm with hm | hm | hm | hm
    · exact Or.inl hm
    · exact Or.inr (Or.inr (Or.inl hm))
    · exact Or.inr (Or.inl hm)
    · exact Or.inr (Or.inr (Or.inr hm))
  rw [hs]
  exact ⟨rfl, rfl, rfl, rfl, rfl, rfl⟩

/-- C10: two frames that agree on all confidence scores and on every keypoint
y coordinate, but differ arbitrarily in x coordinates, produce from the same
prior state the same `lastPosition` / `transitionCount` / `repCount` for both
sides and the same displayed total (x coordinates only influence the drawn
keypoint labels). -/
theorem C10_x_noninterference :
    ∀ (s : NodeState) (inp1 inp2 : FrameInput) (r1 r2 : RunResult),
      run s inp1 = some r1 → run s inp2 = some r2 →
      inp1.keypoint_scores = inp2.keypoint_scores →
      inp1.keypoints.map (fun kl => kl.map Prod.snd)
        = inp2.keypoints.map (fun kl => kl.map Prod.snd) →
      (r1.state.l_up = r2.state.l_up ∧
       r1.state.l_num_direction_changes = r2.state.l_num_direction_changes ∧
       r1.state.l_num_waves = r2.state.l_num_waves ∧
       r1.state.r_up = r2.state.r_up ∧
       r1.state.r_num_direction_changes = r2.state.r_num_direction_changes ∧
       r1.state.r_num_waves = r2.state.r_num_waves) ∧
      r1.wave_str = r2.wave_str := by
  intro s inp1 inp2 r1 r2 h1 h2 hsc hky
  have hlen : inp1.keypoints.length = inp2.keypoints.length := by
    have := congrArg List.length hky
    simpa using this
  by_cases hemp : inp1.keypoints.length = 0 ∨ inp1.keypoint_scores.length = 0
  · have hemp2 : inp2.keypoints.length = 0 ∨ inp2.keypoint_scores.length = 0 := by
      rw [← hlen, ← hsc]; exact hemp
    rw [run_empty_eq hemp] at h1
    rw [run_empty_eq hemp2] at h2
    cases h1
    cases h2
    exact ⟨⟨rfl, rfl, rfl, rfl, rfl, rfl⟩, rfl⟩
  · have hemp2 : ¬(inp2.keypoints.length = 0 ∨ inp2.keypoint_scores.length = 0) := by
      rw [← hlen, ← hsc]; exact hemp
    rw [run, if_neg hemp] at h1
    rw [run, if_neg hemp2] at h2
    split at h1
    next kps1 scores1 hk1 hs1 =>
      split at h1
      next => cases h1
      next acc1 hacc1 =>
        cases h1
        split at h2
        next kps2 scores2 hk2 hs2 =>
          split at h2
          next => cases h2
          next acc2 hacc2 =>
            cases h2
            have hscores : scores2 = scores1 := by
              rw [← hsc] at hs2
              rw [hs1] at hs2
              exact (Option.some.injEq _ _ ▸ hs2).symm
            subst hscores
            have hkmap : kps1.map Prod.snd = kps2.map Prod.snd := by
              have h0 := congrArg (fun l => l[0]?) hky
              simp only [List.getElem?_map] at h0
              rw [hk1, hk2] at h0
              simpa using h0
            obtain ⟨c1a, c2a, c3a, c4a⟩ := scanLoop_char _ _ _ _ hacc1
            obtain ⟨c1b, c2b, c3b, c4b⟩ := scanLoop_char _ _ _ _ hacc2
            have f1 : acc1.left_hip.map Prod.snd = acc2.left_hip.map Prod.snd := by
              rw [c1a, c1b]
              exact pickKP_map_snd _ _ _ _ _ hkmap rfl
            have f2 : acc1.right_hip.map Prod.snd
                = acc2.right_hip.map Prod.snd := by
              rw [c2a, c2b]
              exact pickKP_map_snd _ _ _ _ _ hkmap rfl
            have f3 : acc1.left_knee.map Prod.snd
                = acc2.left_knee.map Prod.snd := by
              rw [c3a, c3b]
              exact pickKP_map_snd _ _ _ _ _ hkmap rfl
            have f4 : acc1.right_knee.map Prod.snd
                = acc2.right_knee.map Prod.snd := by
              rw [c4a, c4b]
              exact pickKP_map_snd _ _ _ _ _ hkmap rfl
            obtain ⟨u1, u2, u3, u4, u5, u6⟩ :=
              updateFromScan_congr (s := s) f1 f2 f3 f4
            refine ⟨⟨u4, u5, u6, u1, u2, u3⟩, ?_⟩
            show waveStr (updateFromScan s acc1) = waveStr (updateFromScan s acc2)
            rw [waveStr, waveStr, u6, u3]
        next => cases h2
    next => cases h1

/-- The result of `run initState fRUp` (left hip unconfident, so no update). -/
def rRUp : RunResult :=
  ⟨initState,
   [⟨0, 240, "(0, 240)", Color.yellow⟩, ⟨0, 360, "(0, 360)", Color.yellow⟩,
    ⟨0, 120, "(0, 120)", Color.yellow⟩,
    ⟨20, 30, "high knees = 0", Color.yellow⟩],
   "high knees = 0"⟩

/-- The result of `run initState fLDown` (right hip unconfident, no update). -/
def rLDown : RunResult :=
  ⟨initState,
   [⟨0, 240, "(0, 240)", Color.yellow⟩, ⟨0, 360, "(0, 360)", Color.yellow⟩,
    ⟨0, 360, "(0, 360)", Color.yellow⟩,
    ⟨20, 30, "high knees = 0", Color.yellow⟩],
   "high knees = 0"⟩

/-- The result of `run initState fEmpty` (no subject). -/
def rEmpty : RunResult :=
  ⟨initState, [⟨20, 30, "high knees = 0", Color.yellow⟩], "high knees = 0"⟩

/-- The node state after `runSeq initState [fAllDown, fAllRUp]`. -/
def sTwoFrames : NodeState :=
  { right_wrist := none,
    right_knee := some (0, Rat.divInt 3 4),
    left_knee := some (0, Rat.divInt 3 4),
    r_up := "up",
    l_up := "down",
    direction := none,
    r_num_direction_changes := 1,
    r_num_waves := 0,
    l_num_direction_changes := 0,
    l_num_waves := 0 }

/-- Keypoints for the C5 scan witness: hips at height 1/2, knees at 3/4. -/
def kpW5 : List (Rat × Rat) :=
  kp15 (0, Rat.divInt 1 2) (0, Rat.divInt 1 2) (0, Rat.divInt 3 4)
    (0, Rat.divInt 3 4)

/-- Scores for the C5 scan witness: the left hip exactly at threshold 0.3,
every other keypoint at 0. -/
def scW5 : List Rat := sc15 (Rat.divInt 3 10) 0 0 0

/-- The scan accumulator produced by scanning `kpW5` with `scW5`. -/
def accW5 : ScanAcc :=
  ⟨none, none, none, some (0, Rat.divInt 1 2),
   [⟨0, 240, "(0, 240)", Color.yellow⟩]⟩

/-- `fAllRUp` with all x coordinates of the tracked keypoints moved to 1. -/
def fAllRUpX : FrameInput :=
  { img_width := 640, img_height := 480,
    keypoints := [kp15 (1, Rat.divInt 1 2) (1, Rat.divInt 1 2)
      (1, Rat.divInt 3 4) (1, Rat.divInt 1 4)],
    keypoint_scores := [sc15 1 1 1 1] }

/-- The result of `run initState fAllRUp`. -/
def rAllRUp : RunResult :=
  ⟨{ right_wrist := none,
     right_knee := some (0, Rat.divInt 1 4),
     left_knee := some (0, Rat.divInt 3 4),
     r_up := "up",
     l_up := "down",
     direction := none,
     r_num_direction_changes := 1,
     r_num_waves := 0,
     l_num_direction_changes := 0,
     l_num_waves := 0 },
   [⟨0, 240, "(0, 240)", Color.yellow⟩, ⟨0, 240, "(0, 240)", Color.yellow⟩,
    ⟨0, 360, "(0, 360)", Color.yellow⟩, ⟨0, 120, "(0, 120)", Color.yellow⟩,
    ⟨20, 30, "high knees = 0", Color.yellow⟩],
   "high knees = 0"⟩

/-- The result of `run initState fAllRUpX`: same counters, different x in the
caches and in the drawn labels. -/
def rAllRUpX : RunResult :=
  ⟨{ right_wrist := none,
     right_knee := some (1, Rat.divInt 1 4),
     left_knee := some (1, Rat.divInt 3 4),
     r_up := "up",
     l_up := "down",
     direction := none,
     r_num_direction_changes := 1,
     r_num_waves := 0,
     l_num_direction_changes := 0,
     l_num_waves := 0 },
   [⟨640, 240, "(640, 240)", Color.yellow⟩,
    ⟨640, 240, "(640, 240)", Color.yellow⟩,
    ⟨640, 360, "(640, 360)", Color.yellow⟩,
    ⟨640, 120, "(640, 120)", Color.yellow⟩,
    ⟨20, 30, "high knees = 0", Color.yellow⟩],
   "high knees = 0"⟩

/-- Witness for C1 (amended): `fRUp` has the left hip below threshold, and
running it from the constructed state leaves every tracked field unchanged. -/
theorem C1_side_independence_witness :
    rRUp.state.l_up = initState.l_up ∧
    rRUp.state.l_num_direction_changes = initState.l_num_direction_changes ∧
    rRUp.state.l_num_waves = initState.l_num_waves ∧
    rRUp.state.r_up = initState.r_up ∧
    rRUp.state.r_num_direction_changes = initState.r_num_direction_changes ∧
    rRUp.state.r_num_waves = initState.r_num_waves :=
  C1_side_independence_amended initState fRUp rRUp
    (by with_unfolding_all decide) (Or.inl (by decide))

/-- Witness for C2: monotonicity over the concrete two-frame sequence, and the
reach-2 behaviour of the per-side update at a concrete flip. -/
theorem C2_monotonicity_witness :
    (initState.l_num_waves ≤ sTwoFrames.l_num_waves ∧
     initState.r_num_waves ≤ sTwoFrames.r_num_waves ∧
     initState.l_num_waves + initState.r_num_waves
       ≤ sTwoFrames.l_num_waves + sTwoFrames.r_num_waves) ∧
    ((limbStep (Rat.divInt 3 4) (Rat.divInt 1 2) "up" 1 5).2.2 = 6 ∧
     (limbStep (Rat.divInt 3 4) (Rat.divInt 1 2) "up" 1 5).2.1 = 0) :=
  ⟨C2_monotonicity.1 initState [fAllDown, fAllRUp] sTwoFrames (by decide),
   (C2_monotonicity.2 (Rat.divInt 3 4) (Rat.divInt 1 2) "up" 1 5).1
     (by decide)⟩

/-- Witness for C3: a concrete down, up, down cycle adds exactly one wave and
resets the transition counter. -/
theorem C3_two_flip_witness :
    Rat.divInt 1 2 < Rat.divInt 3 4 ∧ Rat.divInt 1 4 < Rat.divInt 1 2 ∧
    limbRun [(Rat.divInt 3 4, Rat.divInt 1 2), (Rat.divInt 1 4, Rat.divInt 1 2),
      (Rat.divInt 3 4, Rat.divInt 1 2)] ("down", 0, 5) = ("down", 0, 6) :=
  ⟨by decide, by decide,
   C3_two_flip (Rat.divInt 3 4) (Rat.divInt 1 2) (Rat.divInt 1 4)
     (Rat.divInt 1 2) (Rat.divInt 3 4) (Rat.divInt 1 2) 5
     (by decide) (by decide) (by decide)⟩

/-- Witness for C4: a concrete down, up pair leaves the wave count unchanged
with transition counter 1. -/
theorem C4_single_flip_witness :
    Rat.divInt 1 2 < Rat.divInt 3 4 ∧ Rat.divInt 1 4 < Rat.divInt 1 2 ∧
    limbRun [(Rat.divInt 3 4, Rat.divInt 1 2), (Rat.divInt 1 4, Rat.divInt 1 2)]
      ("down", 0, 5) = ("up", 1, 5) :=
  ⟨by decide, by decide,
   C4_single_flip (Rat.divInt 3 4) (Rat.divInt 1 2) (Rat.divInt 1 4)
     (Rat.divInt 1 2) 5 (by decide) (by decide)⟩

/-- Witness for C5: the concrete scan stores exactly the left hip, which sits
exactly at threshold 0.3; and the concrete below-threshold frames `fRUp` and
`fLDown` freeze the corresponding side. -/
theorem C5_missing_data_freeze_witness :
    ((accW5.left_hip.isSome ↔
        KP_LEFT_HIP < kpW5.length ∧ THRESHOLD ≤ scW5[KP_LEFT_HIP]?.getD 0) ∧
     (accW5.right_hip.isSome ↔
        KP_RIGHT_HIP < kpW5.length ∧ THRESHOLD ≤ scW5[KP_RIGHT_HIP]?.getD 0) ∧
     (accW5.left_knee.isSome ↔
        KP_LEFT_KNEE < kpW5.length ∧ THRESHOLD ≤ scW5[KP_LEFT_KNEE]?.getD 0) ∧
     (accW5.right_knee.isSome ↔
        KP_RIGHT_KNEE < kpW5.length ∧
          THRESHOLD ≤ scW5[KP_RIGHT_KNEE]?.getD 0)) ∧
    (rRUp.state.l_up = initState.l_up ∧
     rRUp.state.l_num_direction_changes = initState.l_num_direction_changes ∧
     rRUp.state.l_num_waves = initState.l_num_waves) ∧
    (rLDown.state.r_up = initState.r_up ∧
     rLDown.state.r_num_direction_changes = initState.r_num_direction_changes ∧
     rLDown.state.r_num_waves = initState.r_num_waves) :=
  ⟨C5_missing_data_freeze.1 kpW5 scW5 (640, 480) accW5
     (by with_unfolding_all decide),
   C5_missing_data_freeze.2.1 initState fRUp rRUp
     (by with_unfolding_all decide) (Or.inl (by decide)),
   C5_missing_data_freeze.2.2 initState fLDown rLDown
     (by with_unfolding_all decide) (Or.inl (by decide))⟩

/-- Witness for C6: the concrete empty frame freezes the constructed state and
draws its total. -/
theorem C6_absent_subject_freeze_witness :
    run initState fEmpty
      = some ⟨initState, [⟨20, 30, waveStr initState, Color.yellow⟩],
          waveStr initState⟩ :=
  C6_absent_subject_freeze initState fEmpty (by decide)

/-- Witness for C7: after the concrete two-frame sequence both transition
counters are at most 1. -/
theorem C7_transition_counter_invariant_witness :
    sTwoFrames.l_num_direction_changes ≤ 1 ∧
      sTwoFrames.r_num_direction_changes ≤ 1 :=
  C7_transition_counter_invariant [fAllDown, fAllRUp] sTwoFrames (by decide)

/-- Witness for C9: the displayed text of the concrete empty-frame run equals
the formatted sum of the resulting counters. -/
theorem C9_aggregated_display_witness :
    rEmpty.wave_str
      = "high knees = "
        ++ toString (rEmpty.state.l_num_waves + rEmpty.state.r_num_waves) :=
  C9_aggregated_display initState fEmpty rEmpty (by decide)

set_option maxRecDepth 4000 in
/-- Witness for C10: `fAllRUp` and `fAllRUpX` differ only in x coordinates;
running both from the constructed state yields the same tracked fields and the
same displayed total (while the drawn labels differ). -/
theorem C10_x_noninterference_witness :
    (rAllRUp.state.l_up = rAllRUpX.state.l_up ∧
     rAllRUp.state.l_num_direction_changes
       = rAllRUpX.state.l_num_direction_changes ∧
     rAllRUp.state.l_num_waves = rAllRUpX.state.l_num_waves ∧
     rAllRUp.state.r_up = rAllRUpX.state.r_up ∧
     rAllRUp.state.r_num_direction_changes
       = rAllRUpX.state.r_num_direction_changes ∧
     rAllRUp.state.r_num_waves = rAllRUpX.state.r_num_waves) ∧
    rAllRUp.wave_str = rAllRUpX.wave_str :=
  C10_x_noninterference initState fAllRUp fAllRUpX rAllRUp rAllRUpX
    (by with_unfolding_all decide) (by with_unfolding_all decide)
    (by decide) (by decide)
